import Mathlib

/-!
Shallow embedding of Squid's Server Name ACL (`src/acl/ServerName.cc`):
the domain matcher `ACLServerNameData::match`, the certificate-field
callback `check_cert_domain`, the orchestrating `Acl::ServerNameCheck::match`
and the configuration validator `Acl::ServerNameCheck::valid`, together
with theorems settling the specification claims about them.

C strings are modelled as lists of byte values (`CStr`); the terminating
NUL is not part of the list, and a null `char *` is `Option.none` at use
sites. Machine ints that stay small are modelled as `Nat`/`Int`.
-/

/-- A C string: its bytes, without the terminating NUL. -/
abbrev CStr := List Nat

/-- ASCII lower-casing of one byte (domain-name comparisons are
case-insensitive). -/
def lowerByte (b : Nat) : Nat := if 65 ≤ b ∧ b ≤ 90 then b + 32 else b

/-- Lower-case every byte of a C string. -/
def lowerStr (s : CStr) : CStr := s.map lowerByte

/-- Modelled from the spec: `matchDomainName(h, d, mdnHonorWildcards)` is not
under src/ (only its caller `aclHostDomainCompare` is). Per the spec's Domain
Matcher contract: comparison is case-insensitive; an empty candidate never
matches; a pattern with a leading dot (byte 46) is a wildcard matching the
bare remaining suffix or any candidate whose trailing labels equal the
pattern; any other pattern requires exact equality. Returns 0 on a match and
a nonzero ordering value otherwise, as the tree comparator expects. -/
def matchDomainName (h d : CStr) : Int :=
  let hl := lowerStr h
  let dl := lowerStr d
  if hl.isEmpty then -1
  else if dl.head? = some 46 then
    (if hl == dl.drop 1 || dl.isSuffixOf hl then 0 else 1)
  else (if hl == dl then 0 else 1)

/-- The configured pattern set of a server_name ACL. The Splay tree of the
source is modelled as the list of its elements; `find` with the
`aclHostDomainCompare` comparator (modelled from the spec's Domain Matcher
contract: true iff some pattern in the set matches) is membership under
`matchDomainName`. -/
structure ACLServerNameData where
  domains : List CStr

/-- `ACLServerNameData::match(const char *host)`: a null host returns 0
(false); otherwise the domain tree is searched with `aclHostDomainCompare`,
and the result is whether a matching pattern was found. -/
def ACLServerNameData.match (d : ACLServerNameData) (host : Option CStr) : Bool :=
  match host with
  | none => false
  | some h => d.domains.any (fun p => matchDomainName h p == 0)

/-- The copy loop of `check_cert_domain`: starting at destination index `d`,
copy the source bytes one by one into the `cn` buffer, returning the list of
(index, byte) writes performed, or `none` when a source byte is NUL and the
function returns 1 early. -/
def copy_writes : List Nat → Nat → Option (List (Nat × Nat))
  | [], _ => some []
  | s :: rest, d =>
      if s == 0 then none
      else (copy_writes rest (d + 1)).map (fun ws => (d, s) :: ws)

/-- `check_cert_domain(check_data, cn_data, addr_type)`: the per-name
callback handed to `Ssl::matchX509CommonNames`. The ASN1_STRING field is its
list of raw bytes (its declared length is the list length). A field longer
than sizeof(cn) - 1 = 1023 returns 1; the copy loop returns 1 on an embedded
NUL; otherwise the copied, NUL-terminated buffer is handed to the ACL data's
matcher, giving 0 on a match and 1 otherwise. `addr_type` is unused in the
source and omitted. -/
def check_cert_domain (data : ACLServerNameData) (cn_data : List Nat) : Nat :=
  if 1023 < cn_data.length then 1
  else
    match copy_writes cn_data 0 with
    | none => 1
    | some ws =>
        if data.match (some (ws.map Prod.snd)) then 0 else 1

/-- All writes `check_cert_domain` performs into its 1024-byte `cn` buffer
when it reaches the copy loop: the loop's writes followed by the NUL
terminator written at index `cn_data->length`; `none` when the loop returns
early on an embedded NUL. -/
def cn_writes (cn_data : List Nat) : Option (List (Nat × Nat)) :=
  (copy_writes cn_data 0).map (fun ws => ws ++ [(cn_data.length, 0)])

/-- An X.509 certificate handle, as this core observes it: the raw CN and
subjectAltName fields that `Ssl::matchX509CommonNames` enumerates (in the
order the store returns them), and the external validity oracle
`Ssl::checkX509ServerValidity(cert, name)` as a predicate on the (possibly
null) name. -/
structure X509 where
  names : List (List Nat)
  validFor : Option CStr → Bool

/-- Modelled from the spec: `Ssl::matchX509CommonNames(cert, data, cb)` is
not under src/. Per the spec's external-interface contract it invokes the
per-name callback on each CN/subjectAltName until one returns 0 (match) or
all are exhausted, returning whether a match was found. -/
def matchX509CommonNames (cert : X509) (data : ACLServerNameData)
    (cb : ACLServerNameData → List Nat → Nat) : Bool :=
  cert.names.any (fun n => cb data n == 0)

/-- The connection state this core reads: the client's TLS SNI (an SBuf,
possibly empty) and the bumped peer certificate,
`conn->serverBump() ? conn->serverBump()->serverCert.get() : nullptr`,
collapsed to an optional certificate. -/
structure ConnStateData where
  tlsClientSni : CStr
  serverBumpCert : Option X509

/-- The request as this core reads it: `request->url.host()`, which the
source notes is never nil (but may be empty). -/
structure HttpRequest where
  urlHost : CStr

/-- `ACLFilledChecklist`: an optional associated request and an optional
connection. -/
structure ACLFilledChecklist where
  request : Option HttpRequest
  conn : Option ConnStateData

/-- The `clientRequestedServerName` computation of
`Acl::ServerNameCheck::match`: the client SNI when non-empty, else the
request URL's host when non-empty, else null. -/
def clientRequestedServerName (request : HttpRequest) (conn : ConnStateData) :
    Option CStr :=
  if conn.tlsClientSni.isEmpty then
    if !request.urlHost.isEmpty then some request.urlHost else none
  else some conn.tlsClientSni

/-- The sentinel server name "none", as bytes. -/
def noneName : CStr := [110, 111, 110, 101]

/-- The server_name ACL check: the three boolean options and the configured
pattern data. -/
structure ServerNameCheck where
  useClientRequested : Bool
  useServerProvided : Bool
  useConsensus : Bool
  data : ACLServerNameData

/-- `Acl::ServerNameCheck::match(ACLChecklist *ch)`. A null checklist or a
null associated request fails the assertion, modelled as `none`; otherwise
the result is `some` of the boolean match outcome. `serverName` starts null,
the flag branches may set it, a still-null name falls back to the sentinel
"none", and the final plain-name match is `data->match(serverName)`; in
certificate mode the result is `Ssl::matchX509CommonNames` over
`check_cert_domain` instead. -/
def ServerNameCheck.match (self : ServerNameCheck)
    (ch : Option ACLFilledChecklist) : Option Bool :=
  match ch with
  | none => none
  | some checklist =>
    match checklist.request with
    | none => none
    | some request =>
      let plain (n : Option CStr) : Bool := self.data.match (some (n.getD noneName))
      match checklist.conn with
      | none => some (plain none)
      | some conn =>
        let crn := clientRequestedServerName request conn
        if self.useConsensus then
          match conn.serverBumpCert with
          | none => some (plain crn)
          | some peer_cert =>
              if peer_cert.validFor crn then some (plain crn)
              else some (plain none)
        else if self.useClientRequested then some (plain crn)
        else
          match conn.serverBumpCert with
          | some peer_cert =>
              some (matchX509CommonNames peer_cert self.data check_cert_domain)
          | none =>
              if !self.useServerProvided then some (plain crn)
              else some (plain none)

/-- `Acl::ServerNameCheck::valid()`: counts the enabled options and rejects
a count above one. -/
def ServerNameCheck.valid (self : ServerNameCheck) : Bool :=
  let optionCount :=
    (if self.useClientRequested then 1 else 0)
    + (if self.useServerProvided then 1 else 0)
    + (if self.useConsensus then 1 else 0)
  if optionCount > 1 then false else true

/-! ## Helper lemmas about the copy loop -/

/-- A field with an embedded NUL makes the copy loop abort, at any
destination index. -/
theorem copy_writes_eq_none {l : List Nat} (h : 0 ∈ l) (d : Nat) :
    copy_writes l d = none := by
  induction l generalizing d with
  | nil => cases h
  | cons s rest ih =>
      rcases List.mem_cons.mp h with h0 | h0
      · simp [copy_writes, h0.symm]
      · by_cases hs : s = 0
        · simp [copy_writes, hs]
        · simp [copy_writes, hs, ih h0]

/-- A NUL-free field is copied in full: the loop writes exactly the source
bytes at consecutive destination indices. -/
theorem copy_writes_eq_some {l : List Nat} (h : 0 ∉ l) (d : Nat) :
    copy_writes l d = some ((List.range' d l.length).zip l) := by
  induction l generalizing d with
  | nil => rfl
  | cons s rest ih =>
      have hs : s ≠ 0 := by
        rintro rfl
        exact h (List.mem_cons_self 0 rest)
      have h' : 0 ∉ rest := fun hm => h (List.mem_cons_of_mem _ hm)
      simp [copy_writes, hs, ih h', List.range'_succ, List.zip]

/-! ## Claim theorems -/

/-- C1: a certificate name field whose raw bytes contain a NUL anywhere
within its declared length makes `check_cert_domain` return 1 (mismatch) for
every pattern set, so the matcher is never consulted and such a field never
matches any configured pattern. -/
theorem check_cert_domain_embedded_nul (data : ACLServerNameData)
    (cn_data : List Nat) (h : 0 ∈ cn_data) :
    check_cert_domain data cn_data = 1 := by
  unfold check_cert_domain
  rw [copy_writes_eq_none h]
  split <;> rfl

/-- Witness for C1: the concrete field "foo\x00evil.com" yields 1 (mismatch)
against the pattern set containing exactly "evil.com". -/
theorem check_cert_domain_embedded_nul_witness :
    check_cert_domain
      (ACLServerNameData.mk [[101, 118, 105, 108, 46, 99, 111, 109]])
      [102, 111, 111, 0, 101, 118, 105, 108, 46, 99, 111, 109] = 1 :=
  check_cert_domain_embedded_nul _ _ (by decide)

/-- C5: a certificate name field longer than 1023 bytes makes
`check_cert_domain` return 1 (a plain non-match, not an error) for every
pattern set, before any copy or matcher call. -/
theorem check_cert_domain_oversize (data : ACLServerNameData)
    (cn_data : List Nat) (h : 1023 < cn_data.length) :
    check_cert_domain data cn_data = 1 := by
  unfold check_cert_domain
  simp [h]

/-- Witness for C5: a 1024-byte field is rejected even against an empty
pattern set. -/
theorem check_cert_domain_oversize_witness :
    check_cert_domain (ACLServerNameData.mk []) (List.replicate 1024 97) = 1 :=
  check_cert_domain_oversize _ _ (by rw [List.length_replicate]; omega)

/-- C6: `valid()` returns false exactly when strictly more than one of the
three option flags is true; in particular enabling both client-requested and
server-provided makes it return false. -/
theorem valid_iff_at_most_one_option (d : ACLServerNameData)
    (b1 b2 b3 : Bool) :
    ((ServerNameCheck.mk b1 b2 b3 d).valid = false ↔
      1 < (if b1 then 1 else 0) + (if b2 then 1 else 0)
          + (if b3 then 1 else 0))
    ∧ (ServerNameCheck.mk true true b3 d).valid = false := by
  cases b1 <;> cases b2 <;> cases b3 <;> simp [ServerNameCheck.valid]

/-- C7: with no connection context at all, the check matches the literal
sentinel "none" against the pattern set, returning an ordinary boolean (no
assertion fires). -/
theorem match_no_connection (self : ServerNameCheck) (req : HttpRequest) :
    self.match (some (ACLFilledChecklist.mk (some req) none)) =
      some (self.data.match (some noneName)) := rfl

/-- C8: the domain matcher returns false, without error, on a null candidate
and on the empty candidate, for every pattern set. -/
theorem aclServerNameData_match_null_or_empty (d : ACLServerNameData) :
    d.match none = false ∧ d.match (some []) = false := by
  refine ⟨rfl, ?_⟩
  simp [ACLServerNameData.match, matchDomainName, lowerStr]

/-- C2: in consensus mode with a live connection, the result is the plain
match of the client-requested name (rendered "none" when absent) when the
certificate is absent or the validity oracle accepts that name; when the
certificate is present and the oracle rejects it, the result is the plain
match of the sentinel "none". The certificate's name fields are never
enumerated: the result is the same for every `cert.names`. -/
theorem match_consensus (self : ServerNameCheck) (req : HttpRequest)
    (conn : ConnStateData) (h : self.useConsensus = true) :
    (conn.serverBumpCert = none →
      self.match (some (ACLFilledChecklist.mk (some req) (some conn))) =
        some (self.data.match
          (some ((clientRequestedServerName req conn).getD noneName))))
    ∧ (∀ cert, conn.serverBumpCert = some cert →
        cert.validFor (clientRequestedServerName req conn) = true →
        self.match (some (ACLFilledChecklist.mk (some req) (some conn))) =
          some (self.data.match
            (some ((clientRequestedServerName req conn).getD noneName))))
    ∧ (∀ cert, conn.serverBumpCert = some cert →
        cert.validFor (clientRequestedServerName req conn) = false →
        self.match (some (ACLFilledChecklist.mk (some req) (some conn))) =
          some (self.data.match (some noneName))) := by
  refine ⟨fun hc => ?_, fun cert hc hv => ?_, fun cert hc hv => ?_⟩
  · simp [ServerNameCheck.match, h, hc]
  · simp [ServerNameCheck.match, h, hc, hv]
  · simp [ServerNameCheck.match, h, hc, hv]

/-- Witness for C2 at a concrete consensus-mode check with no bumped
certificate. -/
theorem match_consensus_witness :
    (ServerNameCheck.mk false false true
        (ACLServerNameData.mk [[97, 46, 99, 111, 109]])).match
      (some (ACLFilledChecklist.mk
        (some (HttpRequest.mk []))
        (some (ConnStateData.mk [97, 46, 99, 111, 109] none)))) =
      some ((ACLServerNameData.mk [[97, 46, 99, 111, 109]]).match
        (some ((clientRequestedServerName (HttpRequest.mk [])
          (ConnStateData.mk [97, 46, 99, 111, 109] none)).getD noneName))) :=
  (match_consensus _ _ _ rfl).1 rfl

/-- C3: with neither the client-requested nor the consensus flag set and a
live connection, a present bumped certificate routes the check through
certificate mode (enumerating CN/subjectAltNames via `check_cert_domain`);
an absent certificate matches the client-requested name under the default
policy, or the sentinel "none" when the server-provided flag is set. -/
theorem match_default_or_server_provided (self : ServerNameCheck)
    (req : HttpRequest) (conn : ConnStateData)
    (h1 : self.useClientRequested = false)
    (h2 : self.useConsensus = false) :
    (∀ cert, conn.serverBumpCert = some cert →
      self.match (some (ACLFilledChecklist.mk (some req) (some conn))) =
        some (matchX509CommonNames cert self.data check_cert_domain))
    ∧ (conn.serverBumpCert = none → self.useServerProvided = false →
      self.match (some (ACLFilledChecklist.mk (some req) (some conn))) =
        some (self.data.match
          (some ((clientRequestedServerName req conn).getD noneName))))
    ∧ (conn.serverBumpCert = none → self.useServerProvided = true →
      self.match (some (ACLFilledChecklist.mk (some req) (some conn))) =
        some (self.data.match (some noneName))) := by
  refine ⟨fun cert hc => ?_, fun hc hs => ?_, fun hc hs => ?_⟩
  · simp [ServerNameCheck.match, h1, h2, hc]
  · simp [ServerNameCheck.match, h1, h2, hc, hs]
  · simp [ServerNameCheck.match, h1, h2, hc, hs]

/-- Witness for C3 at a concrete default-policy check with a bumped
certificate carrying one name. -/
theorem match_default_or_server_provided_witness :
    (ServerNameCheck.mk false false false
        (ACLServerNameData.mk [[97, 46, 99, 111, 109]])).match
      (some (ACLFilledChecklist.mk
        (some (HttpRequest.mk []))
        (some (ConnStateData.mk []
          (some (X509.mk [[97, 46, 99, 111, 109]] (fun _ => false))))))) =
      some (matchX509CommonNames
        (X509.mk [[97, 46, 99, 111, 109]] (fun _ => false))
        (ACLServerNameData.mk [[97, 46, 99, 111, 109]])
        check_cert_domain) :=
  (match_default_or_server_provided _ _ _ rfl rfl).1 _ rfl

/-- C4: the client-requested name is the client SNI when non-empty, else
the request URL's host when non-empty, else absent; and under a valid
configuration with the client-requested flag set, the check matches exactly
that name (rendered "none" when absent), regardless of any certificate. -/
theorem match_client_requested (self : ServerNameCheck) (req : HttpRequest)
    (conn : ConnStateData) (hv : self.valid = true)
    (h : self.useClientRequested = true) :
    (conn.tlsClientSni ≠ [] →
      clientRequestedServerName req conn = some conn.tlsClientSni)
    ∧ (conn.tlsClientSni = [] → req.urlHost ≠ [] →
      clientRequestedServerName req conn = some req.urlHost)
    ∧ (conn.tlsClientSni = [] → req.urlHost = [] →
      clientRequestedServerName req conn = none)
    ∧ self.match (some (ACLFilledChecklist.mk (some req) (some conn))) =
      some (self.data.match
        (some ((clientRequestedServerName req conn).getD noneName))) := by
  have h3 : self.useConsensus = false := by
    rcases self with ⟨b1, b2, b3, d⟩
    cases b1 <;> cases b2 <;> cases b3 <;> simp_all [ServerNameCheck.valid]
  refine ⟨fun hs => ?_, fun hs hh => ?_, fun hs hh => ?_, ?_⟩
  · simp [clientRequestedServerName, hs]
  · simp [clientRequestedServerName, hs, hh]
  · simp [clientRequestedServerName, hs, hh]
  · simp [ServerNameCheck.match, h, h3]

/-- Witness for C4 at a concrete client-requested check whose connection
carries a bumped certificate that the oracle would reject. -/
theorem match_client_requested_witness :
    (ServerNameCheck.mk true false false
        (ACLServerNameData.mk [[97, 46, 99, 111, 109]])).match
      (some (ACLFilledChecklist.mk
        (some (HttpRequest.mk []))
        (some (ConnStateData.mk [97, 46, 99, 111, 109]
          (some (X509.mk [] (fun _ => false))))))) =
      some ((ACLServerNameData.mk [[97, 46, 99, 111, 109]]).match
        (some ((clientRequestedServerName (HttpRequest.mk [])
          (ConnStateData.mk [97, 46, 99, 111, 109]
            (some (X509.mk [] (fun _ => false))))).getD noneName))) :=
  (match_client_requested _ _ _ (by decide) rfl).2.2.2

/-- C10: an accepted field (length at most 1023, no embedded NUL) is copied
verbatim: the buffer writes are exactly the field's bytes at indices
0..length-1 plus a NUL terminator at index length, all below 1024; the
matcher receives precisely the field's bytes, the result is 0 exactly on a
match and 1 otherwise, and 0 and 1 are the only possible return values. -/
theorem check_cert_domain_accepted (data : ACLServerNameData)
    (cn_data : List Nat) (hlen : cn_data.length ≤ 1023)
    (hnul : 0 ∉ cn_data) :
    cn_writes cn_data =
      some ((List.range (cn_data.length + 1)).zip (cn_data ++ [0]))
    ∧ (∀ iv ∈ (List.range (cn_data.length + 1)).zip (cn_data ++ [0]),
        iv.1 < 1024)
    ∧ check_cert_domain data cn_data =
        (if data.match (some cn_data) then 0 else 1)
    ∧ (∀ (d : ACLServerNameData) (c : List Nat),
        check_cert_domain d c = 0 ∨ check_cert_domain d c = 1) := by
  have hnot : ¬ 1023 < cn_data.length := by omega
  refine ⟨?_, ?_, ?_, ?_⟩
  · rw [cn_writes, copy_writes_eq_some hnul, ← List.range_eq_range',
      List.range_succ]
    simp only [Option.map_some']
    rw [List.zip_append (by simp)]
    rfl
  · intro iv hiv
    have h1 := (List.of_mem_zip hiv).1
    have := List.mem_range.mp h1
    omega
  · unfold check_cert_domain
    rw [copy_writes_eq_some hnul]
    simp only [hnot, if_false]
    have hmap : ((List.range' 0 cn_data.length).zip cn_data).map Prod.snd
        = cn_data := by
      apply List.map_snd_zip
      simp
    rw [hmap]
  · intro d c
    unfold check_cert_domain
    split
    · exact Or.inr rfl
    · cases hcw : copy_writes c 0 with
      | none => exact Or.inr rfl
      | some ws =>
          dsimp only
          split
          · exact Or.inl rfl
          · exact Or.inr rfl

/-- Witness for C10 at the concrete field "a.com" against the pattern set
containing exactly "a.com". -/
theorem check_cert_domain_accepted_witness :
    check_cert_domain (ACLServerNameData.mk [[97, 46, 99, 111, 109]])
      [97, 46, 99, 111, 109] =
      (if (ACLServerNameData.mk [[97, 46, 99, 111, 109]]).match
          (some [97, 46, 99, 111, 109]) then 0 else 1) :=
  (check_cert_domain_accepted _ _ (by decide) (by decide)).2.2.1

/-- C9: the entry assertion fires (modelled as `none`) exactly when the
checklist is null or carries no request; every checklist with a request
produces a boolean result. -/
theorem match_assertion (self : ServerNameCheck) (req : HttpRequest)
    (conn : Option ConnStateData) :
    self.match none = none
    ∧ self.match (some (ACLFilledChecklist.mk none conn)) = none
    ∧ (self.match (some (ACLFilledChecklist.mk (some req) conn))).isSome
        = true := by
  refine ⟨rfl, rfl, ?_⟩
  unfold ServerNameCheck.match
  cases conn with
  | none => rfl
  | some c =>
      dsimp only
      split
      · cases c.serverBumpCert with
        | none => rfl
        | some cert => dsimp only; split <;> rfl
      · split
        · rfl
        · cases c.serverBumpCert with
          | none => dsimp only; split <;> rfl
          | some cert => rfl
